import Mathlib

/-!
Shallow embedding of the query-processing pipeline of the
Humanoid-Robotics-Backend repository (Python / FastAPI), covering:

* `src/src/services/validation_service.py`
* `src/src/services/citation_service.py`
* `src/src/services/retrieval_service.py`
* `src/src/services/generation_service.py`
* `src/src/services/gemini_service.py`
* `src/src/utils/response_formatter.py`
* `src/src/api/routes/query.py` (the `query_endpoint` handler)

External effects (the Cohere embedding call, the Qdrant vector search and
the Gemini model call) are modelled as oracles: functions/values supplied
as parameters whose failure is an `Except.error` carrying the Python
exception's message string.  Wall-clock timestamps and the
`generation_time_ms` field are omitted: no claim depends on them.
Python strings are modelled as Lean `String` over their character lists;
`str.strip` / `str.lower` / `str.title` / slicing are re-implemented
character-wise below (faithful for the ASCII data the service handles).
Python floats appearing in the code are the exact constants 0.75 and 0.85
and the bounds 0.0/1.0, so they are modelled exactly as rationals.
-/

namespace HRB

/-! ## Python string semantics helpers -/

/-- Python truthiness of an `Optional[str]`: `None` and `""` are falsy. -/
def pyTruthy : Option String → Bool
  | none => false
  | some s => !(s = "")

/-- Python `str.lower()` (character-wise; faithful for ASCII). -/
def pyLower (s : String) : String :=
  String.mk (s.toList.map Char.toLower)

/-- The ASCII whitespace set of Python `str.strip()` / `str.split()` and of
`\s` in `re` string patterns: space, tab, newline, carriage return,
vertical tab and form feed. -/
def pyIsSpace (c : Char) : Bool :=
  c = ' ' || c = '\t' || c = '\n' || c = '\r' || c = '\x0B' || c = '\x0C'

/-- Python `str.strip()`: drop leading and trailing whitespace. -/
def pyStrip (s : String) : String :=
  String.mk (((s.toList.dropWhile pyIsSpace).reverse.dropWhile
    pyIsSpace).reverse)

/-- Python `len(s)` for strings: number of characters. -/
def pyLen (s : String) : Nat := s.toList.length

/-- Helper for Python substring test: does `needle` occur inside `hay`? -/
def strContainsAux (needle : List Char) : List Char → Bool
  | [] => needle.isEmpty
  | c :: cs => needle.isPrefixOf (c :: cs) || strContainsAux needle cs

/-- Python `needle in hay` for strings (substring containment). -/
def strContains (hay needle : String) : Bool :=
  strContainsAux needle.toList hay.toList

/-- Helper for Python `s.split(sep)` with a one-character separator. -/
def splitOnCharAux (sep : Char) : List Char → List Char → List (List Char)
  | [], acc => [acc.reverse]
  | x :: xs, acc =>
    if x = sep then acc.reverse :: splitOnCharAux sep xs []
    else splitOnCharAux sep xs (x :: acc)

/-- Python `s.split(sep)` for a one-character separator: keeps empty parts,
`"".split(sep) = [""]`. -/
def pySplitOn (s : String) (sep : Char) : List String :=
  (splitOnCharAux sep s.toList []).map String.mk

/-- Python `s.split()` (no argument): split on whitespace runs, no empties. -/
def pySplitWs (s : String) : List String :=
  ((splitOnCharAux ' ' (s.toList.map
    (fun c => if pyIsSpace c then ' ' else c)) []).map String.mk).filter
    (fun w => !(w = ""))

/-- Python `s.replace(old, new)` for one-character old/new. -/
def pyReplaceChar (s : String) (old new : Char) : String :=
  String.mk (s.toList.map (fun c => if c = old then new else c))

/-- Helper for Python `str.title()`: the boolean records whether the previous
character was alphabetic. -/
def pyTitleAux : Bool → List Char → List Char
  | _, [] => []
  | prevAlpha, c :: cs =>
    if c.isAlpha then
      (if prevAlpha then c.toLower else c.toUpper) :: pyTitleAux true cs
    else c :: pyTitleAux false cs

/-- Python `str.title()`: uppercase each letter that follows a non-letter,
lowercase the other letters (faithful for ASCII). -/
def pyTitle (s : String) : String :=
  String.mk (pyTitleAux false s.toList)

/-- Python `s[:n]` for strings: first `n` characters. -/
def pySlice (s : String) (n : Nat) : String :=
  String.mk (s.toList.take n)

/-! ## Data model (`src/src/models`) -/

/-- `QueryRequest` (src/src/models/query.py).  The `user_context`,
`timestamp` and `user_id` fields are never read by the pipeline and are
omitted. -/
structure QueryRequest where
  id : String
  question : String
  query_mode : String
  selected_text : Option String
deriving DecidableEq, Repr

/-- `DocumentChunk` (src/src/models/document.py), fields the pipeline reads.
`embedding_vector` is always `None` in retrieval results and `created_at`
is a wall-clock timestamp; both omitted. -/
structure DocumentChunk where
  id : String
  document_id : String
  content : String
  chunk_index : Nat
deriving DecidableEq, Repr

/-- `Citation` (src/src/models/citation.py). -/
structure Citation where
  id : String
  response_id : String
  document_id : String
  chapter : String
  «section» : String
  file_path : String
  relevance_score : Rat
  text_snippet : String
deriving DecidableEq, Repr

/-- The dict returned by `generate_answer` / `generate_rag_response`.
All construction sites populate every key, with `reason_code` and
`explanation` absent exactly on the success dict (modelled as `none`). -/
structure GenerationResult where
  answer : Option String
  status : String
  confidence_score : Option Rat
  reason_code : Option String
  explanation : Option String
deriving DecidableEq, Repr

/-- The JSON body the endpoint hands to the transport layer: both
`format_refusal_response` and `format_response_with_citations`
(src/src/utils/response_formatter.py) produce this shape.  The success
dict carries no `reason_code`/`explanation` keys (modelled `none`);
`generation_time_ms` and `timestamp` are omitted (wall-clock). -/
structure FormattedResponse where
  id : String
  query_id : String
  answer : Option String
  reason_code : Option String
  explanation : Option String
  citations : List Citation
  retrieved_chunks : List String
  confidence_score : Option Rat
  status : String
deriving DecidableEq, Repr

/-! ## ValidationService (src/src/services/validation_service.py) -/

/-- `ValidationService.validate_query_request`: collects all violated rules
(the three checks are sequential appends to one `errors` list, never an
early return). -/
def validate_query_request (req : QueryRequest) : List String :=
  let e1 : List String :=
    if req.question = "" ∨ pyLen (pyStrip req.question) < 3 then
      ["Question must be at least 3 characters long"]
    else []
  let e2 : List String :=
    if req.query_mode ≠ "book-wide" ∧ req.query_mode ≠ "selected-text" then
      ["Query mode must be either \x27book-wide\x27 or \x27selected-text\x27"]
    else []
  let e3 : List String :=
    if req.query_mode = "selected-text" ∧
       (pyTruthy req.selected_text = false ∨
        pyLen (pyStrip (req.selected_text.getD "")) = 0) then
      ["Selected text must be provided when query mode is \x27selected-text\x27"]
    else []
  e1 ++ e2 ++ e3

/-- `ValidationService.validate_retrieved_context`: `False` on an empty chunk
list, else `len(retrieved_chunks) > 0` (the extra `query_request` argument is
unused by the source body). -/
def validate_retrieved_context (retrieved_chunks : List DocumentChunk) : Bool :=
  if retrieved_chunks = [] then false
  else retrieved_chunks.length > 0

/-- Loop body of `ValidationService.validate_answer_grounding`: some context
part longer than 10 characters shares one of the first five words of the
lowercased answer (the source early-returns `True` on a hit). -/
def groundingHit (answer_lower : String) (context_parts : List String) : Bool :=
  context_parts.any (fun context =>
    pyLen context > 10 &&
      ((pySplitWs answer_lower).take 5).any (fun word => strContains context word))

/-- `ValidationService.validate_answer_grounding`: `False` when answer or
chunks are falsy; otherwise the scan loop either early-returns `True` on a
hit or falls through to the final `return True`. -/
def validate_answer_grounding (answer : String) (retrieved_chunks : List DocumentChunk) : Bool :=
  if answer = "" ∨ retrieved_chunks = [] then false
  else if groundingHit (pyLower answer)
        (retrieved_chunks.map (fun c => pyLower c.content)) then true
  else true

/-- `ValidationService._can_generate_citations`: every chunk carries a truthy
`document_id`. -/
def can_generate_citations (retrieved_chunks : List DocumentChunk) : Bool :=
  retrieved_chunks.all (fun chunk => !(chunk.document_id = ""))

/-- A refusal decision: the dict `\x7b"reason_code": …, "explanation": …\x7d`
returned by `check_refusal_conditions`. -/
structure RefusalInfo where
  reason_code : String
  explanation : String
deriving DecidableEq, Repr

/-- `ValidationService.check_refusal_conditions` with its three sequential
checks.  The endpoint always calls it with `answer = None`, but the
grounding check is embedded for completeness. -/
def check_refusal_conditions (_req : QueryRequest)
    (retrieved_chunks : List DocumentChunk) (answer : Option String) :
    Option RefusalInfo :=
  if validate_retrieved_context retrieved_chunks = false then
    some { reason_code := "NO_RELEVANT_CONTEXT",
           explanation := "No relevant context found in the textbook to answer the question." }
  else if pyTruthy answer = true ∧
      validate_answer_grounding (answer.getD "") retrieved_chunks = false then
    some { reason_code := "NO_RELEVANT_CONTEXT",
           explanation := "The answer could not be properly grounded in the provided textbook context." }
  else if retrieved_chunks ≠ [] ∧ can_generate_citations retrieved_chunks = false then
    some { reason_code := "CITATION_FAILURE",
           explanation := "Citations cannot be generated for the provided context." }
  else none

/-! ## CitationService (src/src/services/citation_service.py) -/

/-- After the literal keyword of the chapter regex
`(?:chapter|ch)\s*(\d+)`: greedily skip whitespace, then require at least
one digit; returns the captured digit group.  (`\s` and `\d` do not
overlap, so greedy matching needs no backtracking here.) -/
def matchChapterDigits (rest : List Char) : Option String :=
  let rest2 := rest.dropWhile pyIsSpace
  let digits := rest2.takeWhile Char.isDigit
  if digits.isEmpty then none else some (String.mk digits)

/-- One anchor position of `re.search(r"(?:chapter|ch)\s*(\d+)", s)`:
the alternation tries `chapter` first, then `ch`. -/
def tryChapterAt (cs : List Char) : Option String :=
  (if ("chapter".toList).isPrefixOf cs then matchChapterDigits (cs.drop 7)
   else none).orElse fun _ =>
  if ("ch".toList).isPrefixOf cs then matchChapterDigits (cs.drop 2)
  else none

/-- `re.search` scan for the chapter pattern: leftmost anchor wins. -/
def searchChapter : List Char → Option String
  | [] => none
  | c :: cs => (tryChapterAt (c :: cs)).orElse fun _ => searchChapter cs

/-- After the literal keyword of the «section» regex
`(?:section|sec)\s*(\d+(?:\.\d+)?)`: skip whitespace, one digit run,
optionally a dot followed by a second digit run. -/
def matchSectionNumber (rest : List Char) : Option String :=
  let rest2 := rest.dropWhile pyIsSpace
  let d1 := rest2.takeWhile Char.isDigit
  if d1.isEmpty then none
  else
    match rest2.drop d1.length with
    | '.' :: rest4 =>
      let d2 := rest4.takeWhile Char.isDigit
      if d2.isEmpty then some (String.mk d1)
      else some (String.mk (d1 ++ '.' :: d2))
    | _ => some (String.mk d1)

/-- One anchor position of `re.search(r"(?:section|sec)\s*(\d+(?:\.\d+)?)", s)`. -/
def trySectionAt (cs : List Char) : Option String :=
  (if ("section".toList).isPrefixOf cs then matchSectionNumber (cs.drop 7)
   else none).orElse fun _ =>
  if ("sec".toList).isPrefixOf cs then matchSectionNumber (cs.drop 3)
  else none

/-- `re.search` scan for the «section» pattern: leftmost anchor wins. -/
def searchSection : List Char → Option String
  | [] => none
  | c :: cs => (trySectionAt (c :: cs)).orElse fun _ => searchSection cs

/-- `CitationService._extract_chapter_from_path`. -/
def extract_chapter_from_path (document_id : String) : String :=
  match searchChapter (pyLower document_id).toList with
  | some n => "Chapter " ++ n
  | none =>
    let parts := pySplitOn document_id '_'
    if parts.length > 1 then
      pyTitle (pyReplaceChar (parts.headD "") '-' ' ')
    else "Unknown Chapter"

/-- `CitationService._extract_section_from_path`: regex first, then the
first part after the leading `_`-separated fragment whose lowercase form
contains "section" or "topic" or which is simply non-empty, else
"General". -/
def extract_section_from_path (document_id : String) : String :=
  match searchSection (pyLower document_id).toList with
  | some n => "Section " ++ n
  | none =>
    let parts := pySplitOn document_id '_'
    if parts.length > 1 then
      match (parts.drop 1).find? (fun part =>
          strContains (pyLower part) "section" ||
          strContains (pyLower part) "topic" || pyLen part > 0) with
      | some part => pyTitle (pyReplaceChar part '-' ' ')
      | none => "General"
    else "General"

/-- `CitationService._calculate_relevance_score`: the fixed score 0.75
(written `mkRat 3 4` so that kernel reduction can evaluate it). -/
def calculate_relevance_score (_chunk : DocumentChunk) : Rat := mkRat 3 4

/-- `CitationService.format_citations`: one citation per retrieved chunk,
in order, with `file_path := document_id` and the snippet truncated at 200
characters. -/
def format_citations (retrieved_chunks : List DocumentChunk)
    (response_id : String) : List Citation :=
  retrieved_chunks.enum.map (fun p =>
    { id := "cit_" ++ response_id ++ "_" ++ toString p.1,
      response_id := response_id,
      document_id := p.2.document_id,
      chapter := extract_chapter_from_path p.2.document_id,
      «section» := extract_section_from_path p.2.document_id,
      file_path := p.2.document_id,
      relevance_score := calculate_relevance_score p.2,
      text_snippet :=
        if pyLen p.2.content > 200 then pySlice p.2.content 200 ++ "..."
        else p.2.content })

/-- `CitationService.validate_citation_format`: the four string fields are
truthy and stay truthy after stripping, and the relevance score lies in
[0.0, 1.0]. -/
def validate_citation_format (citation : Citation) : Bool :=
  [citation.chapter, citation.«section», citation.file_path,
   citation.text_snippet].all
    (fun f => !(f = "") && !(pyStrip f = "")) &&
  (0 ≤ citation.relevance_score && citation.relevance_score ≤ 1)

/-- `CitationService.generate_citation_for_response`: builds the citations
and raises `ValueError` at the first one failing validation
(`Except.error` carries `str(e)`). -/
def generate_citation_for_response (retrieved_chunks : List DocumentChunk)
    (response_id : String) : Except String (List Citation) :=
  match (format_citations retrieved_chunks response_id).find?
      (fun c => validate_citation_format c = false) with
  | some c => Except.error ("Invalid citation format for document " ++ c.document_id)
  | none => Except.ok (format_citations retrieved_chunks response_id)

/-! ## RetrievalService (src/src/services/retrieval_service.py) -/

/-- One Qdrant hit as consumed by `_retrieve_book_wide`: the point id and
the payload keys the loop reads (`created_at` is wall-clock and omitted). -/
structure Point where
  id : String
  content : Option String
  text : Option String
  chunk_text : Option String
  page_content : Option String
  document_id : Option String
  chunk_index : Option Nat
deriving DecidableEq, Repr

/-- Python `a or b` on `payload.get` results: first truthy wins. -/
def pyOrStr (a : Option String) (b : String) : String :=
  match a with
  | some s => if s = "" then b else s
  | none => b

/-- The content-extraction chain
`payload.get("content") or payload.get("text") or payload.get("chunk_text")
or payload.get("page_content") or ""`. -/
def pointContent (p : Point) : String :=
  pyOrStr p.content (pyOrStr p.text (pyOrStr p.chunk_text (pyOrStr p.page_content "")))

/-- The vector-search oracle: `client.query_points(collection_name =
"document_chunks", query = embedding, limit = top_k)`; an unreachable
backend raises, modelled as `Except.error` with the exception message. -/
def SearchOracle : Type := List Rat → Nat → Except String (List Point)

/-- `RetrievalService._retrieve_book_wide`: run the similarity search and
map each hit into a `DocumentChunk`, skipping hits with no extractable
content (`continue`). -/
def retrieve_book_wide (search : SearchOracle) (query_embedding : List Rat)
    (top_k : Nat) : Except String (List DocumentChunk) :=
  match search query_embedding top_k with
  | Except.error e => Except.error e
  | Except.ok points =>
    Except.ok (points.filterMap (fun p =>
      let content := pointContent p
      if content = "" then none
      else some { id := p.id,
                  document_id := p.document_id.getD "",
                  content := content,
                  chunk_index := p.chunk_index.getD 0 }))

/-- `RetrievalService._retrieve_from_selected_text`: one synthetic chunk
wrapping the selected text verbatim, with the fixed sentinel source id
(`top_k` is accepted and ignored, as in the source). -/
def retrieve_from_selected_text (selected_text : String) (_top_k : Nat) :
    List DocumentChunk :=
  [{ id := "temp_selected_text",
     document_id := "selected_text_session",
     content := selected_text,
     chunk_index := 0 }]

/-- `RetrievalService.retrieve_for_query`: the selected-text branch is taken
only when `query_mode == "selected-text"` **and** `selected_text` is truthy;
otherwise the book-wide similarity search runs. -/
def retrieve_for_query (search : SearchOracle) (query_embedding : List Rat)
    (query_mode : String) (selected_text : Option String) (top_k : Nat := 5) :
    Except String (List DocumentChunk) :=
  if query_mode = "selected-text" ∧ pyTruthy selected_text = true then
    Except.ok (retrieve_from_selected_text (selected_text.getD "") top_k)
  else
    retrieve_book_wide search query_embedding top_k

/-! ## GeminiLLMService (src/src/services/gemini_service.py)

The external model call `self.model.generate_content(prompt)` is an oracle:
`Except.error e` models the provider raising (caught inside
`sync_generate`), `Except.ok t` a reply whose `response.text` is `t`
(`none` models a `None` text).  The prompt string itself is consumed only
by the external model and does not influence the interpretation of the
reply, so it is not re-built here. -/

/-- The fixed refusal-indicator phrases of
`GeminiLLMService.generate_rag_response`. -/
def refusalPhrases : List String :=
  ["cannot answer", "no relevant", "not mentioned", "not found in context"]

/-- The fixed refusal-indicator phrases of
`SelectedTextGeminiLLMService.generate_rag_response`. -/
def selectedTextRefusalPhrases : List String :=
  ["cannot answer", "no relevant", "not mentioned",
   "not found in selected text", "not provided in selected text",
   "outside the provided text"]

/-- Does the stripped reply contain one of the refusal phrases,
case-insensitively (`phrase.lower() in response_text.lower()`)? -/
def refusalHit (phrases : List String) (response_text : String) : Bool :=
  phrases.any (fun phrase => strContains (pyLower response_text) (pyLower phrase))

/-- `GeminiLLMService.generate_rag_response` (book-wide service): interpret
the model reply. -/
def gemini_generate_rag_response (outcome : Except String (Option String)) :
    GenerationResult :=
  match outcome with
  | Except.error e =>
    { answer := none, status := "error", confidence_score := none,
      reason_code := some "ERROR",
      explanation := some ("Error generating response: " ++ e) }
  | Except.ok t =>
    if pyTruthy t = true then
      if refusalHit refusalPhrases (pyStrip (t.getD "")) then
        { answer := none, status := "insufficient_context",
          confidence_score := none,
          reason_code := some "NO_RELEVANT_CONTEXT",
          explanation := some "No relevant context found in the provided information." }
      else
        { answer := some (pyStrip (t.getD "")), status := "success",
          confidence_score := some (mkRat 17 20), reason_code := none,
          explanation := none }
    else
      { answer := none, status := "insufficient_context",
        confidence_score := none,
        reason_code := some "NO_RELEVANT_CONTEXT",
        explanation := some "No response was generated from the model." }

/-- `SelectedTextGeminiLLMService.generate_rag_response`: identical shape
with the extended phrase list and its own refusal explanation. -/
def selected_text_generate_rag_response
    (outcome : Except String (Option String)) : GenerationResult :=
  match outcome with
  | Except.error e =>
    { answer := none, status := "error", confidence_score := none,
      reason_code := some "ERROR",
      explanation := some ("Error generating response: " ++ e) }
  | Except.ok t =>
    if pyTruthy t = true then
      if refusalHit selectedTextRefusalPhrases (pyStrip (t.getD "")) then
        { answer := none, status := "insufficient_context",
          confidence_score := none,
          reason_code := some "NO_RELEVANT_CONTEXT",
          explanation := some "No relevant information found in the selected text to answer the question." }
      else
        { answer := some (pyStrip (t.getD "")), status := "success",
          confidence_score := some (mkRat 17 20), reason_code := none,
          explanation := none }
    else
      { answer := none, status := "insufficient_context",
        confidence_score := none,
        reason_code := some "NO_RELEVANT_CONTEXT",
        explanation := some "No response was generated from the model." }

/-! ## GenerationService (src/src/services/generation_service.py) -/

/-- `GenerationService._create_refusal_response`. -/
def create_refusal_response (reason_code explanation : String) :
    GenerationResult :=
  { answer := none, status := "insufficient_context", confidence_score := none,
    reason_code := some reason_code, explanation := some explanation }

/-- `GenerationService.generate_answer`: refuse on an empty chunk list,
otherwise dispatch to the selected-text service when the mode is
"selected-text" with truthy selected text, else to the book-wide service
(the context string built from the chunks is consumed only by the external
model). -/
def generate_answer (outcome : Except String (Option String))
    (query_request : QueryRequest) (retrieved_chunks : List DocumentChunk) :
    GenerationResult :=
  if retrieved_chunks = [] then
    create_refusal_response "NO_RELEVANT_CONTEXT"
      "No relevant context found to answer the question from the textbook."
  else if query_request.query_mode = "selected-text" ∧
      pyTruthy query_request.selected_text = true then
    selected_text_generate_rag_response outcome
  else
    gemini_generate_rag_response outcome

/-- `GenerationService.validate_generation_ability`: the question is truthy
and its stripped length is at least 3. -/
def validate_generation_ability (query_request : QueryRequest) : Bool :=
  if query_request.question = "" ∨ pyLen (pyStrip query_request.question) < 3 then
    false
  else true

/-! ## Response formatter (src/src/utils/response_formatter.py) -/

/-- `format_refusal_response`: the fixed refusal envelope.  Note the
hard-coded `status = "insufficient_context"`, whatever the reason code. -/
def format_refusal_response (query_id reason_code explanation : String) :
    FormattedResponse :=
  { id := "ref_" ++ query_id,
    query_id := query_id,
    answer := none,
    reason_code := some reason_code,
    explanation := some explanation,
    citations := [],
    retrieved_chunks := [],
    confidence_score := none,
    status := "insufficient_context" }

/-- The `QueryResponse` pydantic model as constructed by the endpoint
(timestamps and `generation_time_ms` omitted; note it has **no**
`reason_code`/`explanation` fields, so a generator explanation is dropped
on this path). -/
structure QueryResponse where
  id : String
  query_id : String
  answer : Option String
  citations : List Citation
  retrieved_chunks : List String
  confidence_score : Option Rat
  status : String
deriving DecidableEq, Repr

/-- `format_response_with_citations`: field-for-field copy into the JSON
envelope (citation dicts carry the same data as the `Citation` objects). -/
def format_response_with_citations (response : QueryResponse) :
    FormattedResponse :=
  { id := response.id,
    query_id := response.query_id,
    answer := response.answer,
    reason_code := none,
    explanation := none,
    citations := response.citations,
    retrieved_chunks := response.retrieved_chunks,
    confidence_score := response.confidence_score,
    status := response.status }

/-! ## The query endpoint (src/src/api/routes/query.py) -/

/-- Exceptions that can reach the endpoint's blanket `except Exception`:
the `HTTPException(400, detail)` it raises itself on validation errors
(`fastapi.HTTPException` derives from `Exception`, so the handler catches
it too), and any provider/transport exception from the embedding or
retrieval calls. -/
inductive PyExc where
  | httpException (status_code : Nat) (detailError : String)
      (detailDetails : List String)
  | other (msg : String)
deriving DecidableEq, Repr

/-- Python `repr` of a string: single-quoted, except that a string
containing a single quote (and no double quote — none of the service's
messages has one) is double-quoted. -/
def pyReprStr (s : String) : String :=
  if strContains s "\x27" = true then "\"" ++ s ++ "\""
  else "\x27" ++ s ++ "\x27"

/-- Python `repr` of a list of strings. -/
def pyReprList (xs : List String) : String :=
  "[" ++ String.intercalate ", " (xs.map pyReprStr) ++ "]"

/-- `str(e)` for the caught exception: starlette's
`HTTPException.__str__` is `f"\x7bstatus_code\x7d: \x7bdetail\x7d"` with the
detail dict rendered by Python `repr`; for other exceptions the carried
message. -/
def strOfPyExc : PyExc → String
  | PyExc.httpException code err details =>
    toString code ++ ": \x7b\x27error\x27: " ++ pyReprStr err ++
      ", \x27details\x27: " ++ pyReprList details ++ "\x7d"
  | PyExc.other msg => msg

/-- The per-request external world: the Cohere embedding call, the Qdrant
similarity search, and the Gemini reply for the single generation call the
pipeline makes. -/
structure Oracles where
  embed : String → Except String (List Rat)
  search : SearchOracle
  modelOutcome : Except String (Option String)

/-- The `try:` block of `query_endpoint` (src/src/api/routes/query.py,
steps 1–9): `Except.error` is an exception escaping the block (the raised
`HTTPException`, or an embedding/retrieval failure); the citation
`ValueError` is caught locally (step 8) and never escapes. -/
def query_endpoint_try (o : Oracles) (req : QueryRequest) :
    Except PyExc FormattedResponse :=
  if validate_query_request req ≠ [] then
    Except.error (PyExc.httpException 400 "Invalid query parameters"
      (validate_query_request req))
  else if validate_generation_ability req = false then
    Except.ok (format_refusal_response req.id "NO_RELEVANT_CONTEXT"
      "The query does not contain enough information to generate an answer.")
  else
    match o.embed req.question with
    | Except.error e => Except.error (PyExc.other e)
    | Except.ok query_embedding =>
      match retrieve_for_query o.search query_embedding req.query_mode
          req.selected_text 5 with
      | Except.error e => Except.error (PyExc.other e)
      | Except.ok retrieved_chunks =>
        match check_refusal_conditions req retrieved_chunks none with
        | some refusal =>
          Except.ok (format_refusal_response req.id refusal.reason_code
            refusal.explanation)
        | none =>
          if (generate_answer o.modelOutcome req retrieved_chunks).status =
              "insufficient_context" then
            Except.ok (format_refusal_response req.id
              ((generate_answer o.modelOutcome req retrieved_chunks).reason_code.getD
                "NO_RELEVANT_CONTEXT")
              ((generate_answer o.modelOutcome req retrieved_chunks).explanation.getD
                "Could not generate an answer based on the provided context."))
          else
            match generate_citation_for_response retrieved_chunks req.id with
            | Except.error msg =>
              Except.ok (format_refusal_response req.id "CITATION_FAILURE"
                ("Citations could not be generated: " ++ msg))
            | Except.ok citations =>
              Except.ok (format_response_with_citations
                { id := "resp_" ++ req.id,
                  query_id := req.id,
                  answer := (generate_answer o.modelOutcome req retrieved_chunks).answer,
                  citations := citations,
                  retrieved_chunks := retrieved_chunks.map (fun c => c.id),
                  confidence_score :=
                    (generate_answer o.modelOutcome req retrieved_chunks).confidence_score,
                  status := (generate_answer o.modelOutcome req retrieved_chunks).status })

/-- `query_endpoint`: the `try:` block wrapped in the blanket
`except Exception`, which converts **every** escaping exception — the
endpoint's own `HTTPException(400)` included — into an HTTP-200 refusal
envelope embedding `str(e)`.  Every path returns a structured body. -/
def query_endpoint (o : Oracles) (req : QueryRequest) : FormattedResponse :=
  match query_endpoint_try o req with
  | Except.ok resp => resp
  | Except.error exc =>
    format_refusal_response req.id "ERROR"
      ("An error occurred while processing your request: " ++ strOfPyExc exc)

/-! ## Helper lemmas -/

/-- A request with no validation errors passes
`validate_generation_ability`: the ability check is the same condition the
validator's first rule already enforced. -/
lemma ability_of_validate_empty {req : QueryRequest}
    (h : validate_query_request req = []) :
    validate_generation_ability req = true := by
  unfold validate_query_request at h
  simp only [] at h
  unfold validate_generation_ability
  by_cases hc : req.question = "" ∨ pyLen (pyStrip req.question) < 3
  · rw [if_pos hc] at h
    simp at h
  · rw [if_neg hc]

/-- Every value `query_endpoint_try` can return: an escaped exception, a
refusal envelope, or the assembled success/error envelope of the final
step (with its generation and citation facts). -/
lemma query_endpoint_try_cases (o : Oracles) (req : QueryRequest)
    (r : Except PyExc FormattedResponse) (h : query_endpoint_try o req = r) :
    (∃ exc, r = Except.error exc) ∨
    (∃ rc expl, r = Except.ok (format_refusal_response req.id rc expl)) ∨
    (∃ chunks cits,
      check_refusal_conditions req chunks none = none ∧
      (generate_answer o.modelOutcome req chunks).status ≠ "insufficient_context" ∧
      generate_citation_for_response chunks req.id = Except.ok cits ∧
      r = Except.ok (format_response_with_citations
        { id := "resp_" ++ req.id,
          query_id := req.id,
          answer := (generate_answer o.modelOutcome req chunks).answer,
          citations := cits,
          retrieved_chunks := chunks.map (fun c => c.id),
          confidence_score :=
            (generate_answer o.modelOutcome req chunks).confidence_score,
          status := (generate_answer o.modelOutcome req chunks).status })) := by
  unfold query_endpoint_try at h
  split at h
  · exact Or.inl ⟨_, h.symm⟩
  · split at h
    · exact Or.inr (Or.inl ⟨_, _, h.symm⟩)
    · split at h
      · exact Or.inl ⟨_, h.symm⟩
      · split at h
        · exact Or.inl ⟨_, h.symm⟩
        · split at h
          · exact Or.inr (Or.inl ⟨_, _, h.symm⟩)
          · next hchk =>
            split at h
            · exact Or.inr (Or.inl ⟨_, _, h.symm⟩)
            · next hst =>
              split at h
              · exact Or.inr (Or.inl ⟨_, _, h.symm⟩)
              · next cits hcit =>
                exact Or.inr (Or.inr ⟨_, cits, hchk, hst, hcit, h.symm⟩)

/-- Every response `query_endpoint` can return: a refusal envelope, or the
assembled final envelope. -/
lemma query_endpoint_cases (o : Oracles) (req : QueryRequest) :
    (∃ rc expl, query_endpoint o req = format_refusal_response req.id rc expl) ∨
    (∃ chunks cits,
      check_refusal_conditions req chunks none = none ∧
      (generate_answer o.modelOutcome req chunks).status ≠ "insufficient_context" ∧
      generate_citation_for_response chunks req.id = Except.ok cits ∧
      query_endpoint o req = format_response_with_citations
        { id := "resp_" ++ req.id,
          query_id := req.id,
          answer := (generate_answer o.modelOutcome req chunks).answer,
          citations := cits,
          retrieved_chunks := chunks.map (fun c => c.id),
          confidence_score :=
            (generate_answer o.modelOutcome req chunks).confidence_score,
          status := (generate_answer o.modelOutcome req chunks).status }) := by
  have h := query_endpoint_try_cases o req (query_endpoint_try o req) rfl
  unfold query_endpoint
  rcases h with ⟨exc, he⟩ | ⟨rc, expl, he⟩ | ⟨chunks, cits, h1, h2, h3, he⟩
  · rw [he]
    exact Or.inl ⟨"ERROR", _, rfl⟩
  · rw [he]
    exact Or.inl ⟨rc, expl, rfl⟩
  · rw [he]
    exact Or.inr ⟨chunks, cits, h1, h2, h3, rfl⟩

/-- Every `GenerationResult` that `generate_answer` can produce: a success
record with some answer and the fixed confidence, a provider-error record
with null answer and confidence, or an insufficient-context record with
null answer. -/
lemma generate_answer_cases (outcome : Except String (Option String))
    (req : QueryRequest) (chunks : List DocumentChunk) :
    (∃ t, generate_answer outcome req chunks =
      { answer := some t, status := "success",
        confidence_score := some (mkRat 17 20),
        reason_code := none, explanation := none }) ∨
    (∃ e, generate_answer outcome req chunks =
      { answer := none, status := "error", confidence_score := none,
        reason_code := some "ERROR",
        explanation := some ("Error generating response: " ++ e) }) ∨
    ((generate_answer outcome req chunks).status = "insufficient_context" ∧
     (generate_answer outcome req chunks).answer = none) := by
  unfold generate_answer
  split
  · right; right; exact ⟨rfl, rfl⟩
  · split
    · unfold selected_text_generate_rag_response
      rcases outcome with e | t
      · right; left; exact ⟨e, rfl⟩
      · by_cases ht : pyTruthy t = true
        · by_cases hhit :
            refusalHit selectedTextRefusalPhrases (pyStrip (t.getD "")) = true
          · right; right
            constructor <;> simp [ht, hhit]
          · left
            exact ⟨pyStrip (t.getD ""), by simp [ht, hhit]⟩
        · right; right
          constructor <;> simp [ht]
    · unfold gemini_generate_rag_response
      rcases outcome with e | t
      · right; left; exact ⟨e, rfl⟩
      · by_cases ht : pyTruthy t = true
        · by_cases hhit :
            refusalHit refusalPhrases (pyStrip (t.getD "")) = true
          · right; right
            constructor <;> simp [ht, hhit]
          · left
            exact ⟨pyStrip (t.getD ""), by simp [ht, hhit]⟩
        · right; right
          constructor <;> simp [ht]

/-- An `Except.ok` result of `generate_citation_for_response` is exactly
`format_citations` with every citation passing validation. -/
lemma generate_citation_ok_spec {chunks : List DocumentChunk} {rid : String}
    {cits : List Citation}
    (h : generate_citation_for_response chunks rid = Except.ok cits) :
    cits = format_citations chunks rid ∧
    ∀ c ∈ cits, validate_citation_format c = true := by
  unfold generate_citation_for_response at h
  split at h
  · cases h
  · next hfind =>
    cases h
    refine ⟨rfl, fun c hc => ?_⟩
    have := List.find?_eq_none.mp hfind c hc
    simpa using this

/-- One citation per chunk, in order. -/
lemma format_citations_length (chunks : List DocumentChunk) (rid : String) :
    (format_citations chunks rid).length = chunks.length := by
  unfold format_citations
  rw [List.length_map, List.enum_length]

/-- If the post-retrieval checkpoint proceeds, the chunk list is
non-empty. -/
lemma chunks_nonempty_of_no_refusal {req : QueryRequest}
    {chunks : List DocumentChunk}
    (h : check_refusal_conditions req chunks none = none) : chunks ≠ [] := by
  intro hnil
  subst hnil
  simp [check_refusal_conditions, validate_retrieved_context] at h

/-! ## Claims -/

/-- Claim C3 (confirmed): in selected-text mode with a truthy selected
text, the retriever returns exactly one synthetic passage whose content is
the selected text verbatim and whose source identifier is the sentinel
"selected_text_session"; the conclusion holds for **every** search oracle
and every query embedding, so the corpus index is never consulted and the
embedding is ignored. -/
theorem c3_selected_text_isolation (search : SearchOracle)
    (query_embedding : List Rat) (txt : String) (top_k : Nat) (h : txt ≠ "") :
    retrieve_for_query search query_embedding "selected-text" (some txt) top_k =
      Except.ok [{ id := "temp_selected_text",
                   document_id := "selected_text_session",
                   content := txt, chunk_index := 0 }] := by
  unfold retrieve_for_query
  rw [if_pos ⟨rfl, by simp [pyTruthy, h]⟩]
  rfl

/-- Witness for C3: a concrete selected-text request against a search
oracle that would fail if it were ever consulted. -/
theorem c3_selected_text_isolation_witness :
    retrieve_for_query (fun _ _ => Except.error "backend down") []
        "selected-text" (some "Robots use actuators.") 5 =
      Except.ok [{ id := "temp_selected_text",
                   document_id := "selected_text_session",
                   content := "Robots use actuators.", chunk_index := 0 }] :=
  c3_selected_text_isolation _ _ _ _ (by decide)

/-- Claim C9 (confirmed): with `query_mode = "selected-text"` but a falsy
`selected_text` (`None` or the empty string), `retrieve_for_query` falls
through to the book-wide branch, i.e. it performs the similarity search
`_retrieve_book_wide` instead of building the synthetic passage. -/
theorem c9_falsy_selected_text_falls_back (search : SearchOracle)
    (query_embedding : List Rat) (top_k : Nat) :
    retrieve_for_query search query_embedding "selected-text" none top_k =
      retrieve_book_wide search query_embedding top_k ∧
    retrieve_for_query search query_embedding "selected-text" (some "") top_k =
      retrieve_book_wide search query_embedding top_k := by
  constructor <;>
    · unfold retrieve_for_query
      rw [if_neg (by simp [pyTruthy])]

/-- Claim C10 (confirmed): a request that passes `validate_query_request`
with an empty error list always passes `validate_generation_ability`, so
the pre-retrieval refusal branch of the endpoint is unreachable for
validated requests. -/
theorem c10_validated_requests_can_generate (req : QueryRequest)
    (h : validate_query_request req = []) :
    validate_generation_ability req = true :=
  ability_of_validate_empty h

/-- Witness for C10 at a concrete valid request. -/
theorem c10_validated_requests_can_generate_witness :
    validate_generation_ability
      { id := "q10", question := "What is a humanoid robot?",
        query_mode := "book-wide", selected_text := none } = true :=
  c10_validated_requests_can_generate _ (by decide)

/-- Claim C4 (confirmed): full characterisation of the post-retrieval
checkpoint as called by the endpoint (`answer = None`, i.e. before any
answer is generated): an empty passage list refuses with
NO_RELEVANT_CONTEXT, a non-empty list containing a passage with an empty
source identifier refuses with CITATION_FAILURE, anything else proceeds. -/
theorem c4_post_retrieval_checkpoint (req : QueryRequest)
    (chunks : List DocumentChunk) :
    check_refusal_conditions req chunks none =
      (if chunks = [] then
        some { reason_code := "NO_RELEVANT_CONTEXT",
               explanation := "No relevant context found in the textbook to answer the question." }
       else if chunks.any (fun c => c.document_id = "") then
        some { reason_code := "CITATION_FAILURE",
               explanation := "Citations cannot be generated for the provided context." }
       else none) := by
  by_cases hnil : chunks = []
  · subst hnil
    simp [check_refusal_conditions, validate_retrieved_context]
  · by_cases hany : chunks.any (fun c => c.document_id = "") = true
    · have hcan : can_generate_citations chunks = false := by
        rcases List.any_eq_true.mp hany with ⟨c, hcmem, hcid⟩
        unfold can_generate_citations
        rcases hall : chunks.all (fun c => !(c.document_id = "")) with _ | _
        · rfl
        · have := List.all_eq_true.mp hall c hcmem
          simp at hcid this
          exact absurd hcid this
      simp [check_refusal_conditions, validate_retrieved_context, hnil,
        List.length_pos.mpr hnil, pyTruthy, hcan, hany]
    · have hcan : can_generate_citations chunks = true := by
        unfold can_generate_citations
        rw [List.all_eq_true]
        intro c hcmem
        by_contra hcc
        exact hany (List.any_eq_true.mpr ⟨c, hcmem, by simpa using hcc⟩)
      simp [check_refusal_conditions, validate_retrieved_context, hnil,
        List.length_pos.mpr hnil, pyTruthy, hcan, hany]

/-- Claim C1 (confirmed): every response of the query endpoint whose status
is "success" has a non-null answer, a non-empty citation list with one
citation per retrieved chunk, and every citation passes
`validate_citation_format`. -/
theorem c1_success_envelope (o : Oracles) (req : QueryRequest)
    (h : (query_endpoint o req).status = "success") :
    (query_endpoint o req).answer ≠ none ∧
    (query_endpoint o req).citations ≠ [] ∧
    (query_endpoint o req).citations.length =
      (query_endpoint o req).retrieved_chunks.length ∧
    ∀ c ∈ (query_endpoint o req).citations, validate_citation_format c = true := by
  rcases query_endpoint_cases o req with
    ⟨rc, expl, hq⟩ | ⟨chunks, cits, hchk, hst, hcit, hq⟩
  · rw [hq] at h
    dsimp only [format_refusal_response] at h
    exact absurd h (by decide)
  · obtain ⟨hcfmt, hcval⟩ := generate_citation_ok_spec hcit
    have hlen : cits.length = chunks.length := by
      rw [hcfmt, format_citations_length]
    have hne : chunks ≠ [] := chunks_nonempty_of_no_refusal hchk
    rw [hq] at h ⊢
    simp only [format_response_with_citations] at h ⊢
    refine ⟨?_, ?_, ?_, hcval⟩
    · rcases generate_answer_cases o.modelOutcome req chunks with
        ⟨t, hgen⟩ | ⟨e, hgen⟩ | ⟨hgs, _⟩
      · rw [hgen]
        simp
      · rw [hgen] at h
        dsimp only at h
        exact absurd h (by decide)
      · exact absurd hgs hst
    · intro hcnil
      apply hne
      apply List.eq_nil_of_length_eq_zero
      rw [← hlen, hcnil]
      rfl
    · rw [List.length_map]
      exact hlen

/-- External world for the C1 witness: one well-formed corpus hit and a
plain model answer. -/
def c1_oracles : Oracles :=
  { embed := fun _ => Except.ok [1],
    search := fun _ _ => Except.ok
      [{ id := "p1",
         content := some "Artificial intelligence is the simulation of human intelligence.",
         text := none, chunk_text := none, page_content := none,
         document_id := some "doc_ai_1", chunk_index := some 0 }],
    modelOutcome := Except.ok (some "AI is the simulation of human intelligence.") }

/-- The C1 witness request. -/
def c1_request : QueryRequest :=
  { id := "q1", question := "What is AI?", query_mode := "book-wide",
    selected_text := none }

/-- Witness for C1: a concrete run that reaches status "success". -/
theorem c1_success_envelope_witness :
    (query_endpoint c1_oracles c1_request).status = "success" ∧
    (query_endpoint c1_oracles c1_request).answer ≠ none ∧
    (query_endpoint c1_oracles c1_request).citations ≠ [] :=
  ⟨by decide, (c1_success_envelope c1_oracles c1_request (by decide)).1,
    (c1_success_envelope c1_oracles c1_request (by decide)).2.1⟩

/-- External world for the C2 counterexample: a good corpus hit but a
generation provider failure (status "error"). -/
def c2_oracles : Oracles :=
  { embed := fun _ => Except.ok [1],
    search := fun _ _ => Except.ok
      [{ id := "p1",
         content := some "Artificial intelligence is the simulation of human intelligence.",
         text := none, chunk_text := none, page_content := none,
         document_id := some "doc_ai_1", chunk_index := some 0 }],
    modelOutcome := Except.error "DeadlineExceeded: provider timeout" }

/-- The C2 request. -/
def c2_request : QueryRequest :=
  { id := "q2", question := "What is AI?", query_mode := "book-wide",
    selected_text := none }

/-- Claim C2 counterexample: when the answer generator returns status
"error", the endpoint's step 7 only checks for "insufficient_context", so
the run falls through to citation generation and the final response has
status "error" with a **non-empty** citations list — contradicting the
claim that error responses carry empty citations. -/
theorem c2_error_keeps_citations_counterexample :
    (query_endpoint c2_oracles c2_request).status = "error" ∧
    (query_endpoint c2_oracles c2_request).answer = none ∧
    (query_endpoint c2_oracles c2_request).citations ≠ [] := by decide

/-- Claim C2 (amended): every "insufficient_context" or "error" response
has a null answer and null confidence; the citations list is empty for
every "insufficient_context" response, but an "error" response (generation
provider failure) retains the citations built from the retrieved chunks. -/
theorem c2_amended_terminal_fields (o : Oracles) (req : QueryRequest)
    (h : (query_endpoint o req).status = "insufficient_context" ∨
         (query_endpoint o req).status = "error") :
    (query_endpoint o req).answer = none ∧
    (query_endpoint o req).confidence_score = none ∧
    ((query_endpoint o req).status = "insufficient_context" →
      (query_endpoint o req).citations = []) := by
  rcases query_endpoint_cases o req with
    ⟨rc, expl, hq⟩ | ⟨chunks, cits, hchk, hst, hcit, hq⟩
  · rw [hq]
    exact ⟨rfl, rfl, fun _ => rfl⟩
  · rw [hq] at h ⊢
    simp only [format_response_with_citations] at h ⊢
    rcases generate_answer_cases o.modelOutcome req chunks with
      ⟨t, hgen⟩ | ⟨e, hgen⟩ | ⟨hgs, _⟩
    · rw [hgen] at h
      dsimp only at h
      rcases h with h | h
      · exact absurd h (by decide)
      · exact absurd h (by decide)
    · refine ⟨by rw [hgen], by rw [hgen], fun hi => ?_⟩
      rw [hgen] at hi
      dsimp only at hi
      exact absurd hi (by decide)
    · exact absurd hgs hst

/-- External world for the C2 witness: empty retrieval, hence a refusal. -/
def c2w_oracles : Oracles :=
  { embed := fun _ => Except.ok [1],
    search := fun _ _ => Except.ok [],
    modelOutcome := Except.ok none }

/-- Witness for the amended C2 at a concrete refusal run. -/
theorem c2_amended_terminal_fields_witness :
    (query_endpoint c2w_oracles c2_request).answer = none ∧
    (query_endpoint c2w_oracles c2_request).confidence_score = none :=
  ⟨(c2_amended_terminal_fields c2w_oracles c2_request (Or.inl (by decide))).1,
   (c2_amended_terminal_fields c2w_oracles c2_request (Or.inl (by decide))).2.1⟩

/-- Claim C5 (confirmed): citation construction is all-or-nothing.  If any
single built citation fails `validate_citation_format`, then
`generate_citation_for_response` raises (a `ValueError`, modelled as
`Except.error`), and the endpoint — having already obtained a successful
generation — returns the CITATION_FAILURE refusal with a null answer. -/
theorem c5_citation_failure_overrides_success (o : Oracles)
    (req : QueryRequest) (emb : List Rat) (chunks : List DocumentChunk)
    (hv : validate_query_request req = [])
    (he : o.embed req.question = Except.ok emb)
    (hr : retrieve_for_query o.search emb req.query_mode req.selected_text 5 =
      Except.ok chunks)
    (hn : check_refusal_conditions req chunks none = none)
    (hs : (generate_answer o.modelOutcome req chunks).status = "success")
    (hbad : ∃ c ∈ format_citations chunks req.id,
      validate_citation_format c = false) :
    ∃ msg, generate_citation_for_response chunks req.id = Except.error msg ∧
      query_endpoint o req =
        format_refusal_response req.id "CITATION_FAILURE"
          ("Citations could not be generated: " ++ msg) ∧
      (query_endpoint o req).answer = none := by
  have hsome : ((format_citations chunks req.id).find?
      (fun c => validate_citation_format c = false)).isSome := by
    rw [List.find?_isSome]
    rcases hbad with ⟨c, hcm, hcv⟩
    exact ⟨c, hcm, by simp [hcv]⟩
  obtain ⟨c0, hc0⟩ := Option.isSome_iff_exists.mp hsome
  have herr : generate_citation_for_response chunks req.id =
      Except.error ("Invalid citation format for document " ++ c0.document_id) := by
    unfold generate_citation_for_response
    rw [hc0]
  have htry : query_endpoint_try o req = Except.ok
      (format_refusal_response req.id "CITATION_FAILURE"
        ("Citations could not be generated: " ++
          ("Invalid citation format for document " ++ c0.document_id))) := by
    unfold query_endpoint_try
    simp [hv, ability_of_validate_empty hv, he, hr, hn, hs, herr]
  refine ⟨"Invalid citation format for document " ++ c0.document_id,
    herr, ?_, ?_⟩
  · unfold query_endpoint
    rw [htry]
  · unfold query_endpoint
    rw [htry]
    rfl

/-- External world for the C5 witness: one chunk whose content is a single
space, so the built citation's text snippet strips to empty and fails
validation, while generation itself succeeds. -/
def c5_oracles : Oracles :=
  { embed := fun _ => Except.ok [1],
    search := fun _ _ => Except.ok
      [{ id := "p1", content := some " ", text := none, chunk_text := none,
         page_content := none, document_id := some "doc1",
         chunk_index := some 0 }],
    modelOutcome := Except.ok (some "Robots are machines.") }

/-- The C5 witness request. -/
def c5_request : QueryRequest :=
  { id := "q5", question := "What is a robot?", query_mode := "book-wide",
    selected_text := none }

/-- Witness for C5 at a concrete run with a generator success downgraded by
an invalid citation. -/
theorem c5_citation_failure_overrides_success_witness :
    generate_citation_for_response
        [{ id := "p1", document_id := "doc1", content := " ",
           chunk_index := 0 }] "q5" =
      Except.error "Invalid citation format for document doc1" ∧
    query_endpoint c5_oracles c5_request =
      format_refusal_response "q5" "CITATION_FAILURE"
        "Citations could not be generated: Invalid citation format for document doc1" := by
  obtain ⟨msg, h1, h2, h3⟩ :=
    c5_citation_failure_overrides_success c5_oracles c5_request [1]
      [{ id := "p1", document_id := "doc1", content := " ", chunk_index := 0 }]
      (by decide) rfl rfl rfl (by decide)
      ⟨{ id := "cit_q5_0", response_id := "q5", document_id := "doc1",
         chapter := "Unknown Chapter", «section» := "General",
         file_path := "doc1", relevance_score := mkRat 3 4,
         text_snippet := " " }, by decide, by decide⟩
  have h0 : generate_citation_for_response
      [{ id := "p1", document_id := "doc1", content := " ",
         chunk_index := 0 }] "q5" =
      Except.error "Invalid citation format for document doc1" := rfl
  have hmsg : "Invalid citation format for document doc1" = msg := by
    have hh := h0.symm.trans h1
    injection hh
  rw [← hmsg] at h1 h2
  exact ⟨h1, h2⟩

/-- External world for the C6 counterexample: the embedding provider raises
with a message holding internal detail. -/
def c6_oracles : Oracles :=
  { embed := fun _ =>
      Except.error "ConnectionError: embedding provider unreachable (api key cohere-secret-key)",
    search := fun _ _ => Except.ok [],
    modelOutcome := Except.ok none }

/-- The C6 request. -/
def c6_request : QueryRequest :=
  { id := "q6", question := "What is a humanoid robot?",
    query_mode := "book-wide", selected_text := none }

/-- Claim C6 counterexample: on an infrastructure failure the endpoint's
`except` handler returns `format_refusal_response`, whose status is the
hard-coded "insufficient_context" — not "error" — and whose explanation
embeds `str(e)` verbatim, exposing the provider's internal detail. -/
theorem c6_error_envelope_counterexample :
    (query_endpoint c6_oracles c6_request).status = "insufficient_context" ∧
    ¬(query_endpoint c6_oracles c6_request).status = "error" ∧
    strContains ((query_endpoint c6_oracles c6_request).explanation.getD "")
      "cohere-secret-key" = true := by decide

/-- Claim C6 (amended): **every** exception escaping the endpoint's `try:`
block — the raised `HTTPException(400)`, an embedding-provider failure, or
a retrieval-backend failure (RETRIEVAL_UNAVAILABLE); these are exactly the
`Except.error` outcomes of `query_endpoint_try` — is converted by the
blanket handler into the well-formed refusal envelope with reason code
"ERROR" and the hard-coded status "insufficient_context", whose
explanation embeds `str(e)`; nothing propagates unhandled to the transport
layer. -/
theorem c6_amended_exception_envelope (o : Oracles) (req : QueryRequest)
    (exc : PyExc)
    (h : query_endpoint_try o req = Except.error exc) :
    query_endpoint o req =
      format_refusal_response req.id "ERROR"
        ("An error occurred while processing your request: " ++
          strOfPyExc exc) ∧
    (query_endpoint o req).status = "insufficient_context" ∧
    (query_endpoint o req).answer = none := by
  unfold query_endpoint
  rw [h]
  exact ⟨rfl, rfl, rfl⟩

/-- External world for the witness's second run: a vector-search backend
failure during retrieval. -/
def c6r_oracles : Oracles :=
  { embed := fun _ => Except.ok [1],
    search := fun _ _ =>
      Except.error "RETRIEVAL_UNAVAILABLE: qdrant connection refused",
    modelOutcome := Except.ok none }

/-- Witness for the amended C6 at two concrete infrastructure failures
reaching the handler: a retrieval-backend failure and an embedding-provider
failure. -/
theorem c6_amended_exception_envelope_witness :
    query_endpoint c6r_oracles c6_request =
      format_refusal_response "q6" "ERROR"
        ("An error occurred while processing your request: " ++
          "RETRIEVAL_UNAVAILABLE: qdrant connection refused") ∧
    query_endpoint c6_oracles c6_request =
      format_refusal_response "q6" "ERROR"
        ("An error occurred while processing your request: " ++
          "ConnectionError: embedding provider unreachable (api key cohere-secret-key)") :=
  ⟨(c6_amended_exception_envelope c6r_oracles c6_request
      (PyExc.other "RETRIEVAL_UNAVAILABLE: qdrant connection refused")
      rfl).1,
   (c6_amended_exception_envelope c6_oracles c6_request
      (PyExc.other
        "ConnectionError: embedding provider unreachable (api key cohere-secret-key)")
      rfl).1⟩

/-- The C7 failing input: a question shorter than 3 characters and an
invalid mode (two violated rules at once). -/
def c7_request : QueryRequest :=
  { id := "bad_req", question := "Hi", query_mode := "invalid_mode",
    selected_text := none }

/-- Claim C7 (code bug): the validator does return the full list of
violated rules (both errors collected, no short-circuit), and the raised
`HTTPException(400)` escapes the `try:` block before any oracle is
consulted — but the endpoint's own blanket `except Exception` catches it,
so the caller receives a normal HTTP-200 refusal envelope with reason code
"ERROR" instead of the 400 client error asserted by the repository's test
`test_refusal_invalid_query_mode`. -/
theorem c7_http400_swallowed_by_handler (o : Oracles) :
    validate_query_request c7_request =
      ["Question must be at least 3 characters long",
       "Query mode must be either \x27book-wide\x27 or \x27selected-text\x27"] ∧
    query_endpoint_try o c7_request =
      Except.error (PyExc.httpException 400 "Invalid query parameters"
        ["Question must be at least 3 characters long",
         "Query mode must be either \x27book-wide\x27 or \x27selected-text\x27"]) ∧
    (query_endpoint o c7_request).status = "insufficient_context" ∧
    (query_endpoint o c7_request).reason_code = some "ERROR" :=
  ⟨rfl, rfl, rfl, rfl⟩

/-- Claim C8 counterexample: an empty model output contains no refusal
phrase, yet the generation result is "insufficient_context", not the
"success" the claim's otherwise-branch asserts. -/
theorem c8_empty_output_not_success_counterexample :
    refusalHit refusalPhrases (pyStrip "") = false ∧
    (gemini_generate_rag_response (Except.ok (some ""))).status =
      "insufficient_context" ∧
    ¬(gemini_generate_rag_response (Except.ok (some ""))).status =
      "success" := by decide

/-- Claim C8 (amended): for a **non-empty** model output, both Gemini
services force "insufficient_context"/NO_RELEVANT_CONTEXT with a null
answer when the output contains a refusal phrase (case-insensitively), and
otherwise return "success" with the fixed confidence 0.85; an empty or
absent output yields "insufficient_context" as well ("No response was
generated from the model."). -/
theorem c8_amended_output_interpretation (t : String) (h : t ≠ "") :
    (refusalHit refusalPhrases (pyStrip t) = true →
      gemini_generate_rag_response (Except.ok (some t)) =
        { answer := none, status := "insufficient_context",
          confidence_score := none, reason_code := some "NO_RELEVANT_CONTEXT",
          explanation := some "No relevant context found in the provided information." }) ∧
    (refusalHit refusalPhrases (pyStrip t) = false →
      gemini_generate_rag_response (Except.ok (some t)) =
        { answer := some (pyStrip t), status := "success",
          confidence_score := some (mkRat 17 20),
          reason_code := none, explanation := none }) ∧
    (refusalHit selectedTextRefusalPhrases (pyStrip t) = true →
      selected_text_generate_rag_response (Except.ok (some t)) =
        { answer := none, status := "insufficient_context",
          confidence_score := none, reason_code := some "NO_RELEVANT_CONTEXT",
          explanation := some "No relevant information found in the selected text to answer the question." }) ∧
    (refusalHit selectedTextRefusalPhrases (pyStrip t) = false →
      selected_text_generate_rag_response (Except.ok (some t)) =
        { answer := some (pyStrip t), status := "success",
          confidence_score := some (mkRat 17 20),
          reason_code := none, explanation := none }) ∧
    gemini_generate_rag_response (Except.ok (some "")) =
      { answer := none, status := "insufficient_context",
        confidence_score := none, reason_code := some "NO_RELEVANT_CONTEXT",
        explanation := some "No response was generated from the model." } ∧
    gemini_generate_rag_response (Except.ok none) =
      { answer := none, status := "insufficient_context",
        confidence_score := none, reason_code := some "NO_RELEVANT_CONTEXT",
        explanation := some "No response was generated from the model." } := by
  have ht : pyTruthy (some t) = true := by simp [pyTruthy, h]
  refine ⟨fun hhit => ?_, fun hhit => ?_, fun hhit => ?_, fun hhit => ?_,
    rfl, rfl⟩ <;>
    simp [gemini_generate_rag_response, selected_text_generate_rag_response,
      ht, hhit]

/-- Witness for the amended C8: one refusal-phrase output forced to a
refusal, one plain output mapped to success. -/
theorem c8_amended_output_interpretation_witness :
    gemini_generate_rag_response
        (Except.ok (some "I cannot answer this question.")) =
      { answer := none, status := "insufficient_context",
        confidence_score := none, reason_code := some "NO_RELEVANT_CONTEXT",
        explanation := some "No relevant context found in the provided information." } ∧
    gemini_generate_rag_response
        (Except.ok (some "Robots use actuators to move.")) =
      { answer := some "Robots use actuators to move.", status := "success",
        confidence_score := some (mkRat 17 20),
        reason_code := none, explanation := none } :=
  ⟨(c8_amended_output_interpretation "I cannot answer this question."
      (by decide)).1 (by decide),
   (c8_amended_output_interpretation "Robots use actuators to move."
      (by decide)).2.1 (by decide)⟩

end HRB
